import Mathlib

/-!
Verification of the IP_Catalog generator scripts against their
natural-language specification.

The development shallowly embeds the generation-time logic of the four
generator scripts:

* `rapidsilicon/ip/axis_interconnect/v1_0/axis_interconnect_gen.py`
* `rapidsilicon/ip/fifo/v1_0/fifo_gen.py`
* `rapidsilicon/ip/axi_dpram/v1_0/axi_dpram_gen.py`
* `rapidsilicon/ip/axi_spi_slave/v1_0/axi_spi_slave_gen.py`

Pure computations (width derivation, port naming) become Lean functions;
the effectful `main` flow of `axi_dpram_gen.py` becomes a function from a
run description to the ordered list of observable events; the wrapper
constructors become functions from the configuration to a record of the
ports they request and the clock-domain bindings they emit.
-/

namespace AxisInterconnect

/-- Embeds `keep_width = int((data_width+7)/8)` from
`axis_interconnect_gen.py` line 46.  For every natural `data_width` the
Python float division `(data_width+7)/8` is exact (division by a power of
two), so `int(...)` is the floor, i.e. natural division. -/
def keep_width (data_width : Nat) : Nat := (data_width + 7) / 8

/-- Fuel-indexed ceiling base-2 logarithm: `0` for `n ≤ 1`, otherwise
`ceilLog2 (ceil (n / 2)) + 1`. -/
def ceilLog2Aux : Nat → Nat → Nat
  | 0, _ => 0
  | fuel + 1, n => if n ≤ 1 then 0 else ceilLog2Aux fuel ((n + 1) / 2) + 1

/-- Embeds `select_width = math.ceil(math.log2(s_count))` from
`axis_interconnect_gen.py` line 47, as the ceiling base-2 logarithm on
naturals (exact for every integer argument in the schema domain, where
the float `math.log2` is exact enough for `math.ceil` to agree with the
mathematical value). -/
def select_width (s_count : Nat) : Nat := ceilLog2Aux s_count s_count

/-- Embeds the instance-name suffix branch of `axis_interconnect_gen.py`
lines 53-58 and 66-71: `"{}".format(i)` when `i > 9`, otherwise
`"0{}".format(i)`. -/
def portSuffix (i : Nat) : String :=
  if i > 9 then toString i else "0" ++ toString i

/-- Slave interface request name `s{suffix}_axis` (lines 54/57). -/
def slavePortName (i : Nat) : String := "s" ++ portSuffix i ++ "_axis"

/-- Master interface request name `m{suffix}_axis` (lines 67/70). -/
def masterPortName (i : Nat) : String := "m" ++ portSuffix i ++ "_axis"

/-- Select control port name `m{i}_select` built by `get_control_ios`
(line 31): no zero padding. -/
def selectPortName (i : Nat) : String := "m" ++ toString i ++ "_select"

/-- Value of a Python variable after `for v in range(n)` when `v` itself
is the loop variable (as in `for s_count in range(s_count)`, lines 51 and
64): unchanged if the range is empty, else `n - 1`. -/
def loopVarAfterRange (init n : Nat) : Nat := if n = 0 then init else n - 1

/-- Observable structure assembled by `AXISTREAMINTERCONNECTWrapper.__init__`
(`axis_interconnect_gen.py` lines 35-91): derived widths, the requested
slave/master interface names in creation order, the counts handed to the
`AXISTREAMINTERCONNECT` sub-core (which read the loop variables after the
interface loops have shadowed them), and the requested select control
ports (each of width `select_width`). -/
structure InterconnectWrapper where
  keep_width : Nat
  select_width : Nat
  slavePorts : List String
  masterPorts : List String
  subcore_s_count : Nat
  subcore_m_count : Nat
  selectPorts : List String
deriving Repr, DecidableEq

/-- Embeds the body of `AXISTREAMINTERCONNECTWrapper.__init__`: widths are
computed from the constructor parameters (line 46-47); the slave loop
(line 51) and master loop (line 64) reuse `s_count`/`m_count` as loop
variables, so the sub-core instantiation (lines 76-86) sees the post-loop
values; the control loop (line 89) runs over
`range(m_count + 1)` with the post-loop `m_count`. -/
def mkInterconnectWrapper (m_count s_count data_width : Nat) : InterconnectWrapper :=
  { keep_width := keep_width data_width
    select_width := select_width s_count
    slavePorts := (List.range s_count).map slavePortName
    masterPorts := (List.range m_count).map masterPortName
    subcore_s_count := loopVarAfterRange s_count s_count
    subcore_m_count := loopVarAfterRange m_count m_count
    selectPorts :=
      (List.range (loopVarAfterRange m_count m_count + 1)).map selectPortName }

end AxisInterconnect

namespace AxisInterconnect

/-- Characterisation of the ceiling base-2 logarithm: if `n ≤ 2 ^ k` and
`2 ^ k < 2 * n` then `Nat.clog 2 n = k`. -/
theorem clog2_eq_of {n k : Nat} (h1 : n ≤ 2 ^ k) (h2 : 2 ^ k < 2 * n) :
    Nat.clog 2 n = k := by
  refine le_antisymm ((Nat.le_pow_iff_clog_le Nat.one_lt_two).1 h1) ?_
  cases k with
  | zero => exact Nat.zero_le _
  | succ j =>
    have hj : 2 ^ j < n := by
      have hp : 2 ^ (j + 1) = 2 ^ j * 2 := pow_succ 2 j
      omega
    exact (Nat.pow_lt_iff_lt_clog Nat.one_lt_two).1 hj

/-- Choice set of `--data_width` (`axis_interconnect_gen.py` line 115). -/
def dataWidthChoices : List Nat := [8, 16, 32, 64, 128, 256, 512, 1024]

/-- C8: for every data width in the schema choice set and every slave
count in `[2,16]`, the derived keep width equals `ceil(dataWidth/8)`
(stated as the inequalities `dw ≤ 8*kw < dw + 8` that pin `kw` as that
ceiling) and the derived select width equals
`ceil(log2(max(slaveCount,2)))` (`Nat.clog 2 (max s 2)`); in particular
`selectWidth 2 = 1`, `selectWidth 4 = 2`, `selectWidth 16 = 4`, and the
formula yields `5` at slave count `17`. -/
theorem c8_width_derivation (dw s : Nat)
    (_hdw : dw ∈ dataWidthChoices) (hs : 2 ≤ s ∧ s ≤ 16) :
    (dw ≤ 8 * keep_width dw ∧ 8 * keep_width dw < dw + 8)
    ∧ select_width s = Nat.clog 2 (max s 2)
    ∧ select_width 2 = 1 ∧ select_width 4 = 2 ∧ select_width 16 = 4
    ∧ Nat.clog 2 (max 17 2) = 5 ∧ select_width 17 = 5 := by
  obtain ⟨hs2, hs16⟩ := hs
  refine ⟨?_, ?_, by decide, by decide, by decide,
    clog2_eq_of (by decide) (by decide), by decide⟩
  · unfold keep_width
    omega
  · interval_cases s <;> exact (clog2_eq_of (by decide) (by decide)).symm

/-- Witness for `c8_width_derivation` at `dw = 8`, `s = 4`. -/
theorem c8_width_derivation_witness :
    (8 ∈ dataWidthChoices ∧ 2 ≤ 4 ∧ 4 ≤ 16)
    ∧ ((8 ≤ 8 * keep_width 8 ∧ 8 * keep_width 8 < 8 + 8)
       ∧ select_width 4 = Nat.clog 2 (max 4 2)
       ∧ select_width 2 = 1 ∧ select_width 4 = 2 ∧ select_width 16 = 4
       ∧ Nat.clog 2 (max 17 2) = 5 ∧ select_width 17 = 5) :=
  ⟨⟨by decide, by decide, by decide⟩,
    c8_width_derivation 8 4 (by decide) ⟨by decide, by decide⟩⟩

/-- C1: for every master count in the schema domain `[1,16]`, the wrapper
generates exactly `m_count` select control ports, named `m0_select`
through `m(m_count-1)_select` (the master loop leaves its shadowed loop
variable at `m_count - 1`, so the control loop `range(m_count + 1)` runs
exactly `m_count` times). -/
theorem c1_select_signal_count (m_count s_count data_width : Nat)
    (h1 : 1 ≤ m_count) (h16 : m_count ≤ 16) :
    (mkInterconnectWrapper m_count s_count data_width).selectPorts.length = m_count
    ∧ (mkInterconnectWrapper m_count s_count data_width).selectPorts
        = (List.range m_count).map selectPortName := by
  have h0 : m_count ≠ 0 := by omega
  have h : loopVarAfterRange m_count m_count + 1 = m_count := by
    unfold loopVarAfterRange
    rw [if_neg h0]
    omega
  refine ⟨?_, ?_⟩ <;> simp [mkInterconnectWrapper, h]

/-- Witness for `c1_select_signal_count` at the spec scenario
`{slaveCount: 4, masterCount: 4}`. -/
theorem c1_select_signal_count_witness :
    (1 ≤ 4 ∧ 4 ≤ 16)
    ∧ ((mkInterconnectWrapper 4 4 8).selectPorts.length = 4
       ∧ (mkInterconnectWrapper 4 4 8).selectPorts
           = (List.range 4).map selectPortName) :=
  ⟨⟨by decide, by decide⟩, c1_select_signal_count 4 4 8 (by decide) (by decide)⟩

/-- C9: for every slave count in `[2,16]` and master count in `[1,16]`,
the wrapper creates the configured numbers of slave and master
interfaces, but the sub-core is instantiated with `s_count - 1` and
`m_count - 1` (the loops shadow the parameters), while the select width
recorded in the wrapper is the one computed from the original slave
count before the loops. -/
theorem c9_subcore_counts (m_count s_count data_width : Nat)
    (hs : 2 ≤ s_count ∧ s_count ≤ 16) (hm : 1 ≤ m_count ∧ m_count ≤ 16) :
    (mkInterconnectWrapper m_count s_count data_width).slavePorts.length = s_count
    ∧ (mkInterconnectWrapper m_count s_count data_width).masterPorts.length = m_count
    ∧ (mkInterconnectWrapper m_count s_count data_width).subcore_s_count = s_count - 1
    ∧ (mkInterconnectWrapper m_count s_count data_width).subcore_m_count = m_count - 1
    ∧ (mkInterconnectWrapper m_count s_count data_width).select_width
        = select_width s_count := by
  refine ⟨by simp [mkInterconnectWrapper], by simp [mkInterconnectWrapper], ?_, ?_, rfl⟩
  · simp only [mkInterconnectWrapper, loopVarAfterRange]
    split <;> omega
  · simp only [mkInterconnectWrapper, loopVarAfterRange]
    split <;> omega

/-- Witness for `c9_subcore_counts` at slave count 4, master count 4. -/
theorem c9_subcore_counts_witness :
    ((2 ≤ 4 ∧ 4 ≤ 16) ∧ (1 ≤ 4 ∧ 4 ≤ 16))
    ∧ ((mkInterconnectWrapper 4 4 8).slavePorts.length = 4
       ∧ (mkInterconnectWrapper 4 4 8).masterPorts.length = 4
       ∧ (mkInterconnectWrapper 4 4 8).subcore_s_count = 4 - 1
       ∧ (mkInterconnectWrapper 4 4 8).subcore_m_count = 4 - 1
       ∧ (mkInterconnectWrapper 4 4 8).select_width = select_width 4) :=
  ⟨⟨⟨by decide, by decide⟩, ⟨by decide, by decide⟩⟩,
    c9_subcore_counts 4 4 8 ⟨by decide, by decide⟩ ⟨by decide, by decide⟩⟩

/-- C7: for every instance count in the schema domain (at most 16) and
every index `i` below it, the generated interface name uses the
two-digit zero-padded suffix for `i < 10` and the unpadded decimal for
`i ≥ 10`; index 9 yields `m09_axis`/`s09_axis`, index 10 yields
`m10_axis`/`s10_axis`, and the generated names are pairwise distinct. -/
theorem c7_port_naming :
    ∀ count : Nat, count < 17 →
      (∀ i : Nat, i < count →
        masterPortName i
            = "m" ++ (if i < 10 then "0" ++ toString i else toString i) ++ "_axis"
        ∧ slavePortName i
            = "s" ++ (if i < 10 then "0" ++ toString i else toString i) ++ "_axis")
      ∧ ((List.range count).map masterPortName).Nodup
      ∧ ((List.range count).map slavePortName).Nodup
      ∧ masterPortName 9 = "m09_axis" ∧ masterPortName 10 = "m10_axis" := by
  decide

/-- Witness for `c7_port_naming` at count 12. -/
theorem c7_port_naming_witness :
    (12 < 17)
    ∧ ((∀ i : Nat, i < 12 →
        masterPortName i
            = "m" ++ (if i < 10 then "0" ++ toString i else toString i) ++ "_axis"
        ∧ slavePortName i
            = "s" ++ (if i < 10 then "0" ++ toString i else toString i) ++ "_axis")
      ∧ ((List.range 12).map masterPortName).Nodup
      ∧ ((List.range 12).map slavePortName).Nodup
      ∧ masterPortName 9 = "m09_axis" ∧ masterPortName 10 = "m10_axis") :=
  ⟨by decide, c7_port_naming 12 (by decide)⟩

end AxisInterconnect

namespace Fifo

/-- Constructor parameters of `FIFOWrapper.__init__` (`fifo_gen.py`
line 43); `depth`, `first_word_fall_through`, `empty_value`,
`full_value` and `BRAM` are passed through to the opaque `FIFO`
sub-core untouched. -/
structure FifoCoreParams where
  data_width : Nat
  synchronous : Bool
  full_threshold : Bool
  empty_threshold : Bool
  depth : Nat
  first_word_fall_through : Bool
  empty_value : Nat
  full_value : Nat
  BRAM : Bool
deriving Repr, DecidableEq

/-- Observable structure assembled by `FIFOWrapper.__init__`
(`fifo_gen.py` lines 42-70): the clock domains it creates, the platform
ports it requests (name and width, in request order), and the
clock-domain signal bindings it emits (`cd_x.sig ← requested port`). -/
structure FifoWrapper where
  clockDomains : List String
  requested : List (String × Nat)
  domainBindings : List (String × String)
deriving Repr, DecidableEq

/-- Embeds the body of `FIFOWrapper.__init__`: `cd_sys`, `cd_wrt` and
`cd_rd` are always created (lines 46-48); `din`/`dout` are requested
first (lines 53-54), `prog_full`/`prog_empty` only under their governing
flags (lines 55-58); with `synchronous` the sys domain clock is driven
from `clk`, otherwise the write and read domain clocks are driven from
`wrt_clock` and `rd_clock` (lines 59-63); the sys domain reset is driven
from `rst` unconditionally (line 64); the remaining ports follow
(lines 65-70). -/
def mkFifoWrapper (p : FifoCoreParams) : FifoWrapper :=
  { clockDomains := ["sys", "wrt", "rd"]
    requested :=
      [("din", p.data_width), ("dout", p.data_width)]
      ++ (if p.full_threshold then [("prog_full", 1)] else [])
      ++ (if p.empty_threshold then [("prog_empty", 1)] else [])
      ++ (if p.synchronous then [("clk", 1)] else [("wrt_clock", 1), ("rd_clock", 1)])
      ++ [("rst", 1), ("wr_en", 1), ("rd_en", 1), ("full", 1), ("empty", 1),
          ("underflow", 1), ("overflow", 1)]
    domainBindings :=
      (if p.synchronous then [("cd_sys.clk", "clk")]
       else [("cd_wrt.clk", "wrt_clock"), ("cd_rd.clk", "rd_clock")])
      ++ [("cd_sys.rst", "rst")] }

/-- Spec scenario configuration `{dataWidth: 36, depth: 1024}` with the
remaining fields at their CLI defaults (`fifo_gen.py` lines 91-102). -/
def specScenario (synchronous : Bool) : FifoCoreParams :=
  { data_width := 36
    synchronous := synchronous
    full_threshold := false
    empty_threshold := false
    depth := 1024
    first_word_fall_through := false
    empty_value := 20
    full_value := 1010
    BRAM := false }

/-- C6 counterexample: in the spec scenario with `synchronous = false`
the wrapper does not expose two independent clock/reset domain pairs:
the reset is still bound to the shared `cd_sys` domain, and neither the
write domain nor the read domain receives any reset binding. -/
theorem c6_async_domains_counterexample :
    (("cd_sys.rst", "rst") ∈ (mkFifoWrapper (specScenario false)).domainBindings)
    ∧ ((mkFifoWrapper (specScenario false)).domainBindings.all
        (fun b => b.1 != "cd_wrt.rst" && b.1 != "cd_rd.rst") = true)
    ∧ (mkFifoWrapper (specScenario false)).domainBindings
        = [("cd_wrt.clk", "wrt_clock"), ("cd_rd.clk", "rd_clock"), ("cd_sys.rst", "rst")] := by
  decide

/-- C6 (amended): for every FIFO configuration, with `synchronous = true`
the only domain bindings are `cd_sys.clk ← clk` and `cd_sys.rst ← rst`
and the secondary write/read clock ports are never requested; with
`synchronous = false` the write and read domain clocks are driven from
`wrt_clock` and `rd_clock` and `clk` is not requested, but the reset
still binds the shared `cd_sys` domain and no reset binding exists for
the write or read domain. -/
theorem c6_clock_domain_bindings (p : FifoCoreParams) :
    ((mkFifoWrapper { p with synchronous := true }).domainBindings
        = [("cd_sys.clk", "clk"), ("cd_sys.rst", "rst")]
      ∧ "wrt_clock" ∉ (mkFifoWrapper { p with synchronous := true }).requested.map Prod.fst
      ∧ "rd_clock" ∉ (mkFifoWrapper { p with synchronous := true }).requested.map Prod.fst)
    ∧ ((mkFifoWrapper { p with synchronous := false }).domainBindings
        = [("cd_wrt.clk", "wrt_clock"), ("cd_rd.clk", "rd_clock"), ("cd_sys.rst", "rst")]
      ∧ "clk" ∉ (mkFifoWrapper { p with synchronous := false }).requested.map Prod.fst
      ∧ ("cd_sys.rst", "rst") ∈ (mkFifoWrapper { p with synchronous := false }).domainBindings
      ∧ (∀ src : String,
          ("cd_wrt.rst", src) ∉ (mkFifoWrapper { p with synchronous := false }).domainBindings
          ∧ ("cd_rd.rst", src) ∉ (mkFifoWrapper { p with synchronous := false }).domainBindings)) := by
  obtain ⟨dw, sy, ft, et, dep, fw, ev, fv, br⟩ := p
  cases ft <;> cases et <;> simp [mkFifoWrapper]

end Fifo

namespace BoolParams

/-- Boolean CLI parameters of `fifo_gen.py` (lines 97-102). -/
def fifoBoolParams : List String :=
  ["synchronous", "first_word_fall_through", "full_threshold", "empty_threshold", "BRAM"]

/-- Boolean CLI parameters of `axis_interconnect_gen.py` (lines 119-123). -/
def interconnectBoolParams : List String :=
  ["last_en", "id_en", "dest_en", "user_en"]

/-- Python truthiness of a string, which is what `bool(s)` returns:
`True` exactly when the string is non-empty. -/
def pythonBool (s : String) : Bool := !s.data.isEmpty

/-- Embeds argparse handling of an option declared `type=bool` with no
`choices` (as all the parameters above are): the raw argument string is
accepted unconditionally and converted with Python `bool`. -/
def parseBoolArg (s : String) : Option Bool := some (pythonBool s)

/-- C10: for every boolean CLI parameter of the FIFO and interconnect
generators, the parsed value is `True` for every non-empty argument
string, including the strings `"False"` and `"0"`, and `False` only for
the empty string; no argument is ever rejected. -/
theorem c10_bool_args_always_true (p : String)
    (_hp : p ∈ fifoBoolParams ++ interconnectBoolParams) (s : String) (hs : s ≠ "") :
    parseBoolArg s = some true
    ∧ parseBoolArg "False" = some true
    ∧ parseBoolArg "0" = some true
    ∧ parseBoolArg "" = some false
    ∧ (parseBoolArg s).isSome = true := by
  refine ⟨?_, by decide, by decide, by decide, rfl⟩
  unfold parseBoolArg pythonBool
  cases s with
  | mk data =>
    cases data with
    | nil => exact absurd rfl hs
    | cons c cs => rfl

/-- Witness for `c10_bool_args_always_true` at parameter `synchronous`
and argument string `"False"`. -/
theorem c10_bool_args_always_true_witness :
    ("synchronous" ∈ fifoBoolParams ++ interconnectBoolParams
      ∧ "False" ≠ "")
    ∧ (parseBoolArg "False" = some true
      ∧ parseBoolArg "False" = some true
      ∧ parseBoolArg "0" = some true
      ∧ parseBoolArg "" = some false
      ∧ (parseBoolArg "False").isSome = true) :=
  ⟨⟨by decide, by decide⟩,
    c10_bool_args_always_true "synchronous" (by decide) "False" (by decide)⟩

end BoolParams

namespace AxiDpram

/-- An argparse namespace or JSON document, as an ordered association
list from field name to integer value (all core parameters of
`axi_dpram_gen.py` are integers). -/
abbrev Dict := List (String × Int)

/-- Attribute lookup on a namespace (with `0` as a dummy for a missing
attribute, which does not occur in the runs modelled here). -/
def getVal (ns : Dict) (k : String) : Int :=
  match ns.find? (fun p => p.1 == k) with
  | some p => p.2
  | none => 0

/-- Python dict update of a single key: overwrite in place when the key
exists, else append. -/
def setVal (ns : Dict) (k : String) (v : Int) : Dict :=
  if ns.any (fun p => p.1 == k) then
    ns.map (fun p => if p.1 == k then (k, v) else p)
  else ns ++ [(k, v)]

/-- Python `dict.update`: apply every key of the document in order. -/
def updateDict (ns : Dict) : Dict → Dict
  | [] => ns
  | kv :: doc => updateDict (setVal ns kv.1 kv.2) doc

/-- Default filling during `parser.parse_args(namespace=t_args)`: a
declared default is stored only for attributes not already present on
the namespace. -/
def addDefaults (ns : Dict) : Dict → Dict
  | [] => ns
  | d :: ds => addDefaults (if ns.any (fun p => p.1 == d.1) then ns else ns ++ [d]) ds

/-- Core parameter defaults of `axi_dpram_gen.py` (lines 82-88). -/
def dpramDefaults : Dict :=
  [("data_width", 32), ("addr_width", 16), ("id_width", 32), ("a_pip_out", 0),
   ("b_pip_out", 0), ("a_interleave", 0), ("b_interleave", 0)]

/-- Valid data widths (`axi_dpram_gen.py` line 107). -/
def dpramDataWidthChoices : List Int := [8, 16, 32, 64, 128, 256]

/-- Embeds the Parameter Check block (`axi_dpram_gen.py` lines 103-146):
the fields are tested in declaration order and the first out-of-domain
field is reported with `logger.error` immediately followed by `exit()`,
so at most one field is ever reported.  Returns the reported field, or
`none` when every check passes. -/
def parameterCheck (ns : Dict) : Option String :=
  if ¬ (getVal ns "data_width" ∈ dpramDataWidthChoices) then some "data_width"
  else if ¬ (8 ≤ getVal ns "addr_width" ∧ getVal ns "addr_width" ≤ 16) then some "addr_width"
  else if ¬ (1 ≤ getVal ns "id_width" ∧ getVal ns "id_width" ≤ 32) then some "id_width"
  else if ¬ (0 ≤ getVal ns "a_pip_out" ∧ getVal ns "a_pip_out" ≤ 1) then some "a_pip_out"
  else if ¬ (0 ≤ getVal ns "b_pip_out" ∧ getVal ns "b_pip_out" ≤ 1) then some "b_pip_out"
  else if ¬ (0 ≤ getVal ns "a_interleave" ∧ getVal ns "a_interleave" ≤ 1) then some "a_interleave"
  else if ¬ (0 ≤ getVal ns "b_interleave" ∧ getVal ns "b_interleave" ≤ 1) then some "b_interleave"
  else none

/-- Embeds the JSON import (`axi_dpram_gen.py` lines 149-153, and the
identical block of `axi_spi_slave_gen.py` lines 133-137): a fresh
namespace is filled from the JSON document with `dict.update`,
then `parser.parse_args(namespace=t_args)` adds defaults only for
fields the document did not set and re-applies the explicitly passed
CLI arguments.  No key of the document is compared against the declared
options and no exception is ever raised. -/
def importArgsFromJson (defaults doc cliExplicit : Dict) : Except String Dict :=
  Except.ok (updateDict (addDefaults doc defaults) cliExplicit)

/-- One run of `main` in `axi_dpram_gen.py`: the explicitly passed core
CLI arguments, the optional `--json` document, and whether `--build`
was requested. -/
structure DpramRun where
  cliExplicit : Dict
  jsonDoc : Option Dict
  build : Bool
deriving Repr

/-- Observable events of `main`, listed in execution order. -/
inductive Ev where
  | exitInvalid (field : String)
  | importJson
  | prepare
  | copyFiles
  | generateTcl
  | assemble (cfg : Dict)
  | buildArtifact
deriving Repr, DecidableEq

/-- Namespace in force after the optional JSON import. -/
def mergedNsOf (r : DpramRun) : Dict :=
  match r.jsonDoc with
  | none => updateDict dpramDefaults r.cliExplicit
  | some doc =>
    match importArgsFromJson dpramDefaults doc r.cliExplicit with
    | Except.ok m => m
    | Except.error _ => []

/-- The seven core fields the `AXIDPRAMWrapper` instantiation reads from
the namespace (`axi_dpram_gen.py` lines 177-185). -/
def assembleCfg (ns : Dict) : Dict :=
  [("data_width", getVal ns "data_width"), ("addr_width", getVal ns "addr_width"),
   ("id_width", getVal ns "id_width"), ("a_pip_out", getVal ns "a_pip_out"),
   ("b_pip_out", getVal ns "b_pip_out"), ("a_interleave", getVal ns "a_interleave"),
   ("b_interleave", getVal ns "b_interleave")]

/-- Embeds `main` of `axi_dpram_gen.py` as its event trace: CLI parse
(defaults overlaid with the explicit arguments), the Parameter Check
block on that namespace (exits at the first violation), the optional
JSON import (lines 149-153, after the check), then, when `--build` is
given, `prepare`, `copy_files` and `generate_tcl` (lines 170-173)
before the wrapper is assembled (line 177), and finally
`rs_builder.build` (lines 188-192).  The `--json-template` print is
omitted: it emits no artifact and touches no state. -/
def dpramMain (r : DpramRun) : List Ev :=
  match parameterCheck (updateDict dpramDefaults r.cliExplicit) with
  | some f => [Ev.exitInvalid f]
  | none =>
    (match r.jsonDoc with
     | none => []
     | some _ => [Ev.importJson])
    ++ (if r.build then [Ev.prepare, Ev.copyFiles, Ev.generateTcl] else [])
    ++ [Ev.assemble (assembleCfg (mergedNsOf r))]
    ++ (if r.build then [Ev.buildArtifact] else [])

/-- Every entry of the starting namespace survives argparse default
filling. -/
theorem mem_addDefaults {p : String × Int} {ns : Dict} (ds : Dict) (h : p ∈ ns) :
    p ∈ addDefaults ns ds := by
  induction ds generalizing ns with
  | nil => exact h
  | cons d ds ih =>
    unfold addDefaults
    apply ih
    split
    · exact h
    · exact List.mem_append_left _ h

/-- C2 counterexample: a run whose JSON document sets `data_width` to
`7` (outside the declared domain) proceeds to wrapper assembly with
that value and never reports a validation error — the Parameter Check
ran before the import, on the CLI values only. -/
theorem c2_json_bypass_counterexample :
    dpramMain { cliExplicit := [], jsonDoc := some [("data_width", 7)], build := false }
      = [Ev.importJson,
         Ev.assemble [("data_width", 7), ("addr_width", 16), ("id_width", 32),
                      ("a_pip_out", 0), ("b_pip_out", 0), ("a_interleave", 0),
                      ("b_interleave", 0)]]
    ∧ (7 : Int) ∉ dpramDataWidthChoices := by
  decide

/-- C2 (amended): domain validation runs on the CLI-parsed configuration
before the JSON import; once it passes, no validation failure can occur
in the rest of the run regardless of the JSON contents, and assembly
always runs on the JSON-merged namespace unvalidated. -/
theorem c2_json_values_bypass_validation (r : DpramRun)
    (hok : parameterCheck (updateDict dpramDefaults r.cliExplicit) = none) :
    (∀ f : String, Ev.exitInvalid f ∉ dpramMain r)
    ∧ Ev.assemble (assembleCfg (mergedNsOf r)) ∈ dpramMain r := by
  constructor
  · intro f
    cases hj : r.jsonDoc <;> cases hb : r.build <;> simp [dpramMain, hok, hj, hb]
  · cases hj : r.jsonDoc <;> cases hb : r.build <;> simp [dpramMain, hok, hj, hb]

/-- Witness for `c2_json_values_bypass_validation` at the run of the C2
counterexample. -/
theorem c2_json_values_bypass_validation_witness :
    parameterCheck (updateDict dpramDefaults
        ({ cliExplicit := [], jsonDoc := some [("data_width", 7)], build := false
           : DpramRun }).cliExplicit) = none
    ∧ ((∀ f : String, Ev.exitInvalid f ∉ dpramMain
          { cliExplicit := [], jsonDoc := some [("data_width", 7)], build := false })
       ∧ Ev.assemble (assembleCfg (mergedNsOf
            { cliExplicit := [], jsonDoc := some [("data_width", 7)], build := false }))
          ∈ dpramMain
            { cliExplicit := [], jsonDoc := some [("data_width", 7)], build := false }) :=
  ⟨by decide,
    c2_json_values_bypass_validation
      { cliExplicit := [], jsonDoc := some [("data_width", 7)], build := false }
      (by decide)⟩

/-- C3 counterexample: with both `data_width = 7` and `addr_width = 99`
out of domain, the check reports only `data_width` and the run
terminates at once, so the violations are not aggregated into one
report. -/
theorem c3_first_violation_counterexample :
    parameterCheck (updateDict dpramDefaults [("data_width", 7), ("addr_width", 99)])
      = some "data_width"
    ∧ ¬ ((8 : Int) ≤ getVal (updateDict dpramDefaults
            [("data_width", 7), ("addr_width", 99)]) "addr_width"
         ∧ getVal (updateDict dpramDefaults
            [("data_width", 7), ("addr_width", 99)]) "addr_width" ≤ 16)
    ∧ dpramMain { cliExplicit := [("data_width", 7), ("addr_width", 99)],
                  jsonDoc := none, build := true }
        = [Ev.exitInvalid "data_width"] := by
  decide

/-- C3 (amended): validation tests the fields in declaration order and
terminates at the first out-of-domain field, reporting exactly that one
field; nothing else runs afterwards, so no artifact is produced. -/
theorem c3_exit_reports_first_violation_only (r : DpramRun) (f : String)
    (hf : parameterCheck (updateDict dpramDefaults r.cliExplicit) = some f) :
    dpramMain r = [Ev.exitInvalid f] := by
  simp [dpramMain, hf]

/-- Witness for `c3_exit_reports_first_violation_only` at the run of the
C3 counterexample. -/
theorem c3_exit_reports_first_violation_only_witness :
    parameterCheck (updateDict dpramDefaults
        ({ cliExplicit := [("data_width", 7), ("addr_width", 99)],
           jsonDoc := none, build := true : DpramRun }).cliExplicit) = some "data_width"
    ∧ dpramMain { cliExplicit := [("data_width", 7), ("addr_width", 99)],
                  jsonDoc := none, build := true }
        = [Ev.exitInvalid "data_width"] :=
  ⟨by decide,
    c3_exit_reports_first_violation_only
      { cliExplicit := [("data_width", 7), ("addr_width", 99)],
        jsonDoc := none, build := true }
      "data_width" (by decide)⟩

/-- C4 counterexample: importing the document `{"bogus_key": 5}` — a key
absent from the schema — succeeds and silently merges the key into the
namespace; no error of any kind is raised. -/
theorem c4_unknown_key_counterexample :
    importArgsFromJson dpramDefaults [("bogus_key", 5)] []
      = Except.ok (addDefaults [("bogus_key", 5)] dpramDefaults)
    ∧ ("bogus_key", (5 : Int)) ∈ addDefaults [("bogus_key", 5)] dpramDefaults
    ∧ "bogus_key" ∉ dpramDefaults.map Prod.fst := by
  refine ⟨rfl, by decide, by decide⟩

/-- C4 (amended): the JSON import never fails: every key of the imported
document, known to the schema or not, is silently merged into the
configuration namespace. -/
theorem c4_unknown_keys_merged_silently (ns doc : Dict) (k : String) (v : Int)
    (h : (k, v) ∈ doc) :
    ∃ m, importArgsFromJson ns doc [] = Except.ok m ∧ k ∈ m.map Prod.fst := by
  refine ⟨addDefaults doc ns, rfl, ?_⟩
  exact List.mem_map_of_mem Prod.fst (mem_addDefaults ns h)

/-- Witness for `c4_unknown_keys_merged_silently` at the document of the
C4 counterexample. -/
theorem c4_unknown_keys_merged_silently_witness :
    ("bogus_key", (5 : Int)) ∈ ([("bogus_key", (5 : Int))] : Dict)
    ∧ ∃ m, importArgsFromJson dpramDefaults [("bogus_key", 5)] [] = Except.ok m
        ∧ "bogus_key" ∈ m.map Prod.fst :=
  ⟨by decide,
    c4_unknown_keys_merged_silently dpramDefaults [("bogus_key", 5)] "bogus_key" 5
      (by decide)⟩

/-- C5 counterexample: in a valid `--build` run the first events are
`prepare`, `copy_files` and `generate_tcl` — all three run before the
wrapper is assembled, so build-directory operations precede assembly. -/
theorem c5_build_before_assembly_counterexample :
    dpramMain { cliExplicit := [], jsonDoc := none, build := true }
      = [Ev.prepare, Ev.copyFiles, Ev.generateTcl,
         Ev.assemble [("data_width", 32), ("addr_width", 16), ("id_width", 32),
                      ("a_pip_out", 0), ("b_pip_out", 0), ("a_interleave", 0),
                      ("b_interleave", 0)],
         Ev.buildArtifact]
    ∧ (dpramMain { cliExplicit := [], jsonDoc := none, build := true }).head?
        = some Ev.prepare := by
  decide

/-- C5 (amended): when a build is requested and the CLI configuration
passes validation, `prepare`, `copy_files` and `generate_tcl` run after
validation but before wrapper assembly, and only the final artifact
generation follows assembly; when validation fails, the run exits
before any build-directory operation. -/
theorem c5_build_dir_ops_precede_assembly (r : DpramRun)
    (hb : r.build = true)
    (hok : parameterCheck (updateDict dpramDefaults r.cliExplicit) = none) :
    dpramMain r
      = (match r.jsonDoc with
         | none => []
         | some _ => [Ev.importJson])
        ++ [Ev.prepare, Ev.copyFiles, Ev.generateTcl,
            Ev.assemble (assembleCfg (mergedNsOf r)), Ev.buildArtifact] := by
  cases hj : r.jsonDoc <;> simp [dpramMain, hok, hb, hj]

/-- Witness for `c5_build_dir_ops_precede_assembly` at the run of the C5
counterexample. -/
theorem c5_build_dir_ops_precede_assembly_witness :
    ({ cliExplicit := [], jsonDoc := none, build := true : DpramRun }).build = true
    ∧ parameterCheck (updateDict dpramDefaults
        ({ cliExplicit := [], jsonDoc := none, build := true : DpramRun }).cliExplicit)
        = none
    ∧ dpramMain { cliExplicit := [], jsonDoc := none, build := true }
        = [Ev.prepare, Ev.copyFiles, Ev.generateTcl,
           Ev.assemble (assembleCfg (mergedNsOf
             { cliExplicit := [], jsonDoc := none, build := true })),
           Ev.buildArtifact] :=
  ⟨rfl, by decide,
    c5_build_dir_ops_precede_assembly
      { cliExplicit := [], jsonDoc := none, build := true } rfl (by decide)⟩

end AxiDpram

namespace Fifo

/-- Witness for `c6_clock_domain_bindings` at the spec scenario
configuration. -/
theorem c6_clock_domain_bindings_witness :
    ((mkFifoWrapper { specScenario false with synchronous := true }).domainBindings
        = [("cd_sys.clk", "clk"), ("cd_sys.rst", "rst")]
      ∧ "wrt_clock" ∉ (mkFifoWrapper
          { specScenario false with synchronous := true }).requested.map Prod.fst
      ∧ "rd_clock" ∉ (mkFifoWrapper
          { specScenario false with synchronous := true }).requested.map Prod.fst)
    ∧ ((mkFifoWrapper { specScenario false with synchronous := false }).domainBindings
        = [("cd_wrt.clk", "wrt_clock"), ("cd_rd.clk", "rd_clock"), ("cd_sys.rst", "rst")]
      ∧ "clk" ∉ (mkFifoWrapper
          { specScenario false with synchronous := false }).requested.map Prod.fst
      ∧ ("cd_sys.rst", "rst") ∈ (mkFifoWrapper
          { specScenario false with synchronous := false }).domainBindings
      ∧ (∀ src : String,
          ("cd_wrt.rst", src) ∉ (mkFifoWrapper
            { specScenario false with synchronous := false }).domainBindings
          ∧ ("cd_rd.rst", src) ∉ (mkFifoWrapper
            { specScenario false with synchronous := false }).domainBindings)) :=
  c6_clock_domain_bindings (specScenario false)

end Fifo
